import Mathlib

/-!
Shallow embedding of the `memguar` crate: the memory-mapped buffer
(`src/file/mapper.rs`), the page-locking guard (`src/wrappers/locker.rs`)
and the page-advisory guard (`src/wrappers/advisor.rs`).

OS calls (`mmap`, `mlock`, `munlock`, `posix_madvise`) and the fallible
standard-library steps (`tempfile()`, `File::set_len`) are modelled as
explicit inputs: each embedded function takes the outcome the OS would
return and produces the trace of syscalls it issued together with its
Rust-level result.  A Rust panic (from `assert!`, `panic!`, `unwrap` or
`expect`) is a distinct outcome, not a returned error.
-/

namespace Memguar

/-- The messages of the panic sites in the sources: the
`assert!(size_of_val(buf) > 0, "Zero size buffer")` in `MappedBuffer::new`,
the `panic!("{}", Error::last_os_error())` on `MAP_FAILED` (carrying the last
OS error code), the `.expect("Cant unlock while dropping")` in
`Drop for Locker`, and the `.expect("Cant give advise while dropping")` in
`Drop for Adviser`. -/
inductive PanicMsg : Type where
  | zeroSizeBuffer : PanicMsg
  | lastOsError : Int → PanicMsg
  | cantUnlockWhileDropping : PanicMsg
  | cantAdviseWhileDropping : PanicMsg
deriving DecidableEq, Repr

/-- Outcome of a Rust computation that may panic instead of returning. -/
inductive PanicOr (α : Type) : Type where
  | panicked : PanicMsg → PanicOr α
  | returned : α → PanicOr α
deriving DecidableEq, Repr

/-- `std::io::Error` as surfaced by `tempfile()` and `File::set_len`:
an OS error carrying its raw code (retrievable via `raw_os_error`). -/
structure IoError : Type where
  rawCode : Int
deriving DecidableEq, Repr

/-- The access-pattern hints of `wrappers/advisor.rs`
(`WillNeed = 3`, `DontNeed = 4`). -/
inductive Advise : Type where
  | willNeed : Advise
  | dontNeed : Advise
deriving DecidableEq, Repr

/-- `advise as c_int`: the `#[repr(i32)]` discriminants. -/
def Advise.toInt : Advise → Int
  | .willNeed => 3
  | .dontNeed => 4

/-- The syscalls the three wrappers issue, as trace events. -/
inductive Syscall : Type where
  | mlock : Syscall
  | munlock : Syscall
  | madvise : Advise → Syscall
  | mmapCall : Syscall
  | munmapCall : Syscall
deriving DecidableEq, Repr

/-- Result of the `mmap` call in `MappedBuffer::new`: either `MAP_FAILED`
or success with the start address of the new mapping. -/
inductive MmapResult : Type where
  | mapFailed : MmapResult
  | mapped : Nat → MmapResult
deriving DecidableEq, Repr

/-! ## `MappedBuffer` (`src/file/mapper.rs`) -/

/-- `MappedBuffer<T>`: `size` is the byte length of the mapping, `addr` the
address of `ptr`, and `mem` the element-typed content of the mapped range
(the mapping of a freshly sized temporary file starts out zero-filled). -/
structure MappedBuffer (α : Type) : Type where
  size : Nat
  addr : Nat
  mem : List α
deriving DecidableEq, Repr

/-- `MappedBuffer::new` (`src/file/mapper.rs:33-71`).  `elemSize` and
`elemAlign` are `size_of::<T>()` and `align_of::<T>()`; `zero` is the value
of `T` whose byte representation is all zeroes (the content a fresh
file-backed mapping exposes before anything is written).  `tmpfile` and
`setLen` are the outcomes of `tempfile()` and `file.set_len(size)`, `os` the
outcome of `mmap`, and `lastErrno` the thread's last OS error code (read by
`Error::last_os_error()` on the `MAP_FAILED` panic path).

Order of operations, as in the source: assert the byte size is non-zero
(panic "Zero size buffer" otherwise), create the temp file (`?`), size it
(`?`), `mmap` it, panic with the last OS error on `MAP_FAILED`; otherwise,
if the returned pointer is aligned for `T`, copy `buf.len()` elements into
the mapping — if it is misaligned, no copy happens — and return `Ok`. -/
def MappedBuffer.new (elemSize elemAlign : Nat) (zero : α) (data : List α)
    (tmpfile : Except IoError Unit) (setLen : Except IoError Unit)
    (os : MmapResult) (lastErrno : Int) :
    List Syscall × PanicOr (Except IoError (MappedBuffer α)) :=
  let size := data.length * elemSize
  if size > 0 then
    match tmpfile with
    | .error e => ([], .returned (.error e))
    | .ok _ =>
      match setLen with
      | .error e => ([], .returned (.error e))
      | .ok _ =>
        match os with
        | .mapFailed => ([.mmapCall], .panicked (.lastOsError lastErrno))
        | .mapped addr =>
          let mem :=
            if addr % elemAlign = 0 then data
            else List.replicate (size / elemSize) zero
          ([.mmapCall], .returned (.ok ⟨size, addr, mem⟩))
  else ([], .panicked .zeroSizeBuffer)

/-- `MappedBuffer::receive` (`src/file/mapper.rs:86-92`):
`slice::from_raw_parts(self.ptr.cast(), self.size / size_of::<T>())`, i.e.
the first `size / elemSize` elements of the mapped range. -/
def MappedBuffer.receive (elemSize : Nat) (b : MappedBuffer α) : List α :=
  b.mem.take (b.size / elemSize)

/-- `impl Deref for MappedBuffer` (`src/file/mapper.rs:95-101`):
`fn deref(&self) -> &[T] { self.receive() }`. -/
def MappedBuffer.deref (elemSize : Nat) (b : MappedBuffer α) : List α :=
  b.receive elemSize

/-- `impl Drop for MappedBuffer` (`src/file/mapper.rs:103-110`):
one `munmap(self.ptr, self.size)` call, result ignored. -/
def MappedBuffer.drop (_b : MappedBuffer α) : List Syscall :=
  [.munmapCall]

/-! ## `Locker` (`src/wrappers/locker.rs`) -/

/-- Parsed types of `mlock` and `munlock` errors
(`src/wrappers/locker.rs:76-88`).  `Eio` renders the source's `EIO`
variant. -/
inductive LockError : Type where
  | EPERM | EINTR | Eio | EAGAIN | ENOMEM | EFAULT | EBUSY | EINVAL | ENOSYS
  | EUNIM : Int → LockError
deriving DecidableEq, Repr

/-- `impl From<c_int> for LockError` (`src/wrappers/locker.rs:90-105`). -/
def LockError.fromInt (err : Int) : LockError :=
  match err with
  | 1 => .EPERM
  | 4 => .EINTR
  | 5 => .Eio
  | 11 => .EAGAIN
  | 12 => .ENOMEM
  | 14 => .EFAULT
  | 16 => .EBUSY
  | 22 => .EINVAL
  | 38 => .ENOSYS
  | _ => .EUNIM err

/-- `Locker::lock` (`src/wrappers/locker.rs:36-48`): one `mlock` call;
result `0` is `Ok(())`, anything else `Err(LockError::from(result))`.
`mlockResult` is the value the OS returns. -/
def Locker.lock (mlockResult : Int) : List Syscall × Except LockError Unit :=
  ([.mlock], if mlockResult = 0 then .ok () else .error (.fromInt mlockResult))

/-- `Locker::unlock` (`src/wrappers/locker.rs:53-65`): one `munlock` call;
result `0` is `Ok(())`, anything else `Err(LockError::from(result))`. -/
def Locker.unlock (munlockResult : Int) : List Syscall × Except LockError Unit :=
  ([.munlock],
   if munlockResult = 0 then .ok () else .error (.fromInt munlockResult))

/-- `impl Drop for Locker` (`src/wrappers/locker.rs:68-73`):
`self.unlock().expect("Cant unlock while dropping")` — `unlock` is called
unconditionally, and an `Err` from it makes the drop panic.  (The vestigial
copy in `src/locker.rs:60-64` uses `.unwrap()`, which also panics.) -/
def Locker.drop (munlockResult : Int) : List Syscall × Option PanicMsg :=
  match Locker.unlock munlockResult with
  | (calls, .ok _) => (calls, none)
  | (calls, .error _) => (calls, some .cantUnlockWhileDropping)

/-- A whole `Locker` scope: the caller may or may not call `lock`
(`callLock`), with OS result `mlockResult` if it does; when the scope ends,
`Drop` runs with OS result `munlockResult`.  Returns the syscall trace of
the scope and the teardown outcome (`none` = returned normally). -/
def Locker.scope (callLock : Bool) (mlockResult munlockResult : Int) :
    List Syscall × Option PanicMsg :=
  let userCalls := if callLock then (Locker.lock mlockResult).1 else []
  let (dropCalls, outcome) := Locker.drop munlockResult
  (userCalls ++ dropCalls, outcome)

/-! ## `Adviser` (`src/wrappers/advisor.rs`) -/

/-- Parsed types of `syscall_advise` errors
(`src/wrappers/advisor.rs:69-76`). -/
inductive AdviseError : Type where
  | EFAULT | EINVAL | ENOMEM | ENOSYS
  | EUNIM : Int → AdviseError
deriving DecidableEq, Repr

/-- `impl From<c_int> for AdviseError` (`src/wrappers/advisor.rs:78-88`). -/
def AdviseError.fromInt (err : Int) : AdviseError :=
  match err with
  | 12 => .ENOMEM
  | 14 => .EFAULT
  | 22 => .EINVAL
  | 38 => .ENOSYS
  | _ => .EUNIM err

/-- `Adviser::syscall_advise` (`src/wrappers/advisor.rs:41-53`): one
`posix_madvise(ptr, len, advise as c_int)` call; result `0` is `Ok(())`,
anything else `Err(AdviseError::from(result))`. -/
def Adviser.syscallAdvise (advise : Advise) (osResult : Int) :
    List Syscall × Except AdviseError Unit :=
  ([.madvise advise],
   if osResult = 0 then .ok () else .error (.fromInt osResult))

/-- `impl Drop for Adviser` (`src/wrappers/advisor.rs:56-61`):
`self.syscall_advise(DontNeed).expect("Cant give advise while dropping")`.
(The vestigial copy in `src/advisor.rs:44-48` uses `.unwrap()`, which also
panics.) -/
def Adviser.drop (osResult : Int) : List Syscall × Option PanicMsg :=
  match Adviser.syscallAdvise .dontNeed osResult with
  | (calls, .ok _) => (calls, none)
  | (calls, .error _) => (calls, some .cantAdviseWhileDropping)

/-- The syscall trace of a sequence of user `syscall_advise` calls, each
given as the hint requested and the OS result it got. -/
def Adviser.runCalls : List (Advise × Int) → List Syscall
  | [] => []
  | (a, r) :: rest => (Adviser.syscallAdvise a r).1 ++ Adviser.runCalls rest

/-- A whole `Adviser` scope: the caller makes the `syscall_advise` calls in
`userCalls` (possibly none); when the scope ends, `Drop` runs with OS result
`dropResult`. -/
def Adviser.scope (userCalls : List (Advise × Int)) (dropResult : Int) :
    List Syscall × Option PanicMsg :=
  let (dropCalls, outcome) := Adviser.drop dropResult
  (Adviser.runCalls userCalls ++ dropCalls, outcome)

/-! ## Error-code mapping of the mapper -/

/-- Modelled from the spec: `MappedBuffer::new` has no error-mapping
function of its own under `src/` — its failures surface `std::io::Error`
values built from the raw OS code, whose kind classification lives in the
Rust standard library.  The spec's §3 `ErrorKind` describes that
classification as "a closed enumeration covering the well-known failure
codes ... (e.g., invalid argument, out of memory, permission denied,
faulted address, operation not supported, interrupted), plus a variant
carrying an unrecognized raw code". -/
inductive MapperErrorKind : Type where
  | invalidArgument | outOfMemory | permissionDenied | faultedAddress
  | notSupported | interrupted
  | unrecognized : Int → MapperErrorKind
deriving DecidableEq, Repr

/-- Modelled from the spec: the raw-code → kind classification the mapper's
`std::io::Error` values carry, on the §3 taxonomy (standard errno values:
`EPERM`=1, `EINTR`=4, `ENOMEM`=12, `EACCES`=13, `EFAULT`=14, `EINVAL`=22,
`ENOSYS`=38).  Raw code 12 is out-of-memory; an unrecognized raw code falls
to the carrier variant preserving the code. -/
def mapperErrorKindOfRaw (raw : Int) : MapperErrorKind :=
  match raw with
  | 1 => .permissionDenied
  | 4 => .interrupted
  | 12 => .outOfMemory
  | 13 => .permissionDenied
  | 14 => .faultedAddress
  | 22 => .invalidArgument
  | 38 => .notSupported
  | _ => .unrecognized raw

/-- The raw codes `LockError::from` recognizes with a dedicated variant. -/
def lockRecognizedCodes : List Int := [1, 4, 5, 11, 12, 14, 16, 22, 38]

/-- The raw codes `AdviseError::from` recognizes with a dedicated variant. -/
def adviseRecognizedCodes : List Int := [12, 14, 22, 38]

/-- The raw codes `mapperErrorKindOfRaw` recognizes with a dedicated kind. -/
def mapperRecognizedCodes : List Int := [1, 4, 12, 13, 14, 22, 38]

/-! ## Claims -/

/-- C1: for every non-empty input sequence `data`, constructing a mapped
region with `MappedBuffer::new(data)` and reading it back with `receive()`
yields a sequence equal to `data` element-for-element.  The backing-store
steps succeed and `mmap` returns an address aligned for `T` (which `mmap`
guarantees whenever `align_of::<T>()` divides the page size). -/
theorem new_receive_roundtrip {α : Type} (elemSize elemAlign : Nat) (zero : α)
    (data : List α) (addr : Nat) (lastErrno : Int)
    (hdata : data ≠ []) (hsz : 0 < elemSize) (halign : addr % elemAlign = 0) :
    ∃ b : MappedBuffer α,
      (MappedBuffer.new elemSize elemAlign zero data (.ok ()) (.ok ())
          (.mapped addr) lastErrno).2 = .returned (.ok b)
      ∧ b.receive elemSize = data := by
  have hsize : 0 < data.length * elemSize :=
    Nat.mul_pos (List.length_pos.mpr hdata) hsz
  refine ⟨⟨data.length * elemSize, addr, data⟩, ?_, ?_⟩
  · simp [MappedBuffer.new, hsize, halign]
  · simp [MappedBuffer.receive, Nat.mul_div_cancel _ hsz]

/-- Witness for C1 at `data = [420, 7]`, `elemSize = elemAlign = 4`,
`addr = 4096`. -/
theorem new_receive_roundtrip_witness :
    ∃ b : MappedBuffer Int,
      (MappedBuffer.new 4 4 0 [420, 7] (.ok ()) (.ok ()) (.mapped 4096) 0).2
        = .returned (.ok b) ∧ b.receive 4 = [420, 7] :=
  new_receive_roundtrip 4 4 0 [420, 7] 4096 0 (by decide) (by decide) (by decide)

/-- C2, counterexample: on the empty input, `MappedBuffer::new` does not
return a defined error value to the caller — it panics with the assertion
message "Zero size buffer". -/
theorem new_empty_cex :
    MappedBuffer.new 4 4 (0 : Int) [] (.ok ()) (.ok ()) (.mapped 4096) 0
      = ([], .panicked .zeroSizeBuffer) := rfl

/-- C2, amended: for every empty input sequence, `MappedBuffer::new` panics
with the assertion message "Zero size buffer" (it does not return), and it
never establishes a zero-length mapping — no `mmap` call is issued. -/
theorem new_empty_panics {α : Type} (elemSize elemAlign : Nat) (zero : α)
    (tmpfile setLen : Except IoError Unit) (os : MmapResult) (lastErrno : Int) :
    MappedBuffer.new elemSize elemAlign zero ([] : List α) tmpfile setLen os
        lastErrno
      = ([], .panicked .zeroSizeBuffer) := by
  simp [MappedBuffer.new]

/-- C3, counterexample: when `mmap` reports `MAP_FAILED` (here with last OS
error 12), `MappedBuffer::new` does not return a recoverable result — it
panics with the last OS error. -/
theorem new_mmapfail_cex :
    MappedBuffer.new 4 4 (0 : Int) [420] (.ok ()) (.ok ()) .mapFailed 12
      = ([.mmapCall], .panicked (.lastOsError 12)) := rfl

/-- C3, amended: whenever the OS mapping call cannot satisfy the request,
`MappedBuffer::new` surfaces the failure by panicking with the last OS
error (it aborts the caller rather than returning a recoverable result);
the failure is never silently ignored. -/
theorem new_mmapfail_panics {α : Type} (elemSize elemAlign : Nat) (zero : α)
    (data : List α) (lastErrno : Int)
    (hdata : data ≠ []) (hsz : 0 < elemSize) :
    MappedBuffer.new elemSize elemAlign zero data (.ok ()) (.ok ()) .mapFailed
        lastErrno
      = ([.mmapCall], .panicked (.lastOsError lastErrno)) := by
  have hsize : 0 < data.length * elemSize :=
    Nat.mul_pos (List.length_pos.mpr hdata) hsz
  simp [MappedBuffer.new, hsize]

/-- Witness for the amended C3 at `data = [420]`, `lastErrno = 12`. -/
theorem new_mmapfail_panics_witness :
    MappedBuffer.new 4 4 (0 : Int) [420] (.ok ()) (.ok ()) .mapFailed 12
      = ([.mmapCall], .panicked (.lastOsError 12)) :=
  new_mmapfail_panics 4 4 0 [420] 12 (by decide) (by decide)

/-- C4, failing input: with `align_of::<T>() = 8192` and the page-aligned
address 4096, the returned pointer is misaligned for `T`; `new` skips the
copy yet still returns `Ok`, so `receive` yields the zero-filled fresh
mapping `[0]` instead of the input `[420]` — a silent no-op. -/
theorem new_misaligned_silent_noop :
    ∃ b : MappedBuffer Int,
      (MappedBuffer.new 4 8192 (0 : Int) [420] (.ok ()) (.ok ())
          (.mapped 4096) 0).2 = .returned (.ok b)
      ∧ b.receive 4 ≠ [420] ∧ b.receive 4 = [0] :=
  ⟨⟨4, 4096, [0]⟩, rfl, by decide, rfl⟩

/-- C5: raw code 12 maps to an out-of-memory kind in all three wrappers,
and every unrecognized raw code maps to the carrier variant retaining the
exact raw value (`EUNIM` in locker and advisor; the unrecognized-code
carrier of the mapper's error kind). -/
theorem errcode_mapping :
    LockError.fromInt 12 = .ENOMEM
    ∧ AdviseError.fromInt 12 = .ENOMEM
    ∧ mapperErrorKindOfRaw 12 = .outOfMemory
    ∧ (∀ r : Int, r ∉ lockRecognizedCodes → LockError.fromInt r = .EUNIM r)
    ∧ (∀ r : Int, r ∉ adviseRecognizedCodes → AdviseError.fromInt r = .EUNIM r)
    ∧ (∀ r : Int, r ∉ mapperRecognizedCodes →
        mapperErrorKindOfRaw r = .unrecognized r) := by
  refine ⟨rfl, rfl, rfl, ?_, ?_, ?_⟩ <;>
  · intro r h
    simp only [lockRecognizedCodes, adviseRecognizedCodes, mapperRecognizedCodes,
      List.mem_cons, List.not_mem_nil, or_false, not_or] at h
    first
    | (unfold LockError.fromInt; split <;> simp_all)
    | (unfold AdviseError.fromInt; split <;> simp_all)
    | (unfold mapperErrorKindOfRaw; split <;> simp_all)

/-- Witness for C5 at the unrecognized raw code 999. -/
theorem errcode_mapping_witness :
    LockError.fromInt 999 = .EUNIM 999
    ∧ AdviseError.fromInt 999 = .EUNIM 999
    ∧ mapperErrorKindOfRaw 999 = .unrecognized 999 :=
  ⟨errcode_mapping.2.2.2.1 999 (by decide),
   errcode_mapping.2.2.2.2.1 999 (by decide),
   errcode_mapping.2.2.2.2.2 999 (by decide)⟩

/-- C6: over a whole `Locker` scope, `munlock` is issued exactly once at
teardown, whether or not `lock` was ever called and whatever its result; a
non-zero `munlock` result makes the drop panic (never silently swallowed),
and a zero result lets it complete normally. -/
theorem locker_scope_release_once (callLock : Bool)
    (mlockResult munlockResult : Int) :
    (Locker.scope callLock mlockResult munlockResult).1.count .munlock = 1
    ∧ (munlockResult ≠ 0 →
        (Locker.scope callLock mlockResult munlockResult).2
          = some .cantUnlockWhileDropping)
    ∧ (munlockResult = 0 →
        (Locker.scope callLock mlockResult munlockResult).2 = none) := by
  unfold Locker.scope Locker.drop Locker.unlock Locker.lock
  by_cases h : munlockResult = 0 <;> cases callLock <;> simp [h]

/-- Witness for C6: no `lock` call, `munlock` fails with 12 — one `munlock`
in the trace and a teardown panic. -/
theorem locker_scope_release_once_witness :
    (Locker.scope false 0 12).1.count .munlock = 1
    ∧ (Locker.scope false 0 12).2 = some .cantUnlockWhileDropping :=
  ⟨(locker_scope_release_once false 0 12).1,
   (locker_scope_release_once false 0 12).2.1 (by decide)⟩

/-- C7: over a whole `Adviser` scope the syscall trace is the user's
`posix_madvise` calls followed by exactly one `DontNeed` issued by the drop,
whatever hints (if any) the user requested and whatever the OS answers. -/
theorem adviser_scope_final_dontneed (userCalls : List (Advise × Int))
    (dropResult : Int) :
    (Adviser.scope userCalls dropResult).1
      = userCalls.map (fun p => Syscall.madvise p.1)
          ++ [Syscall.madvise .dontNeed]
    ∧ (Adviser.drop dropResult).1.count (Syscall.madvise .dontNeed) = 1 := by
  have hrun : ∀ l : List (Advise × Int),
      Adviser.runCalls l = l.map (fun p => Syscall.madvise p.1) := by
    intro l
    induction l with
    | nil => rfl
    | cons hd tl ih => simp [Adviser.runCalls, Adviser.syscallAdvise, ih]
  constructor
  · unfold Adviser.scope Adviser.drop Adviser.syscallAdvise
    by_cases h : dropResult = 0 <;> simp [h, hrun]
  · unfold Adviser.drop Adviser.syscallAdvise
    by_cases h : dropResult = 0 <;> simp [h]

/-- C8: every successfully constructed buffer's `receive()` view covers the
full mapped range and has length `size / size_of::<T>()`; in particular a
region built from a 16,000-element integer buffer has `view().len() =
16000`. -/
theorem receive_full_view :
    (∀ (α : Type) (elemSize elemAlign : Nat) (zero : α) (data : List α)
        (tmpfile setLen : Except IoError Unit) (os : MmapResult)
        (lastErrno : Int) (b : MappedBuffer α),
        0 < elemSize →
        (MappedBuffer.new elemSize elemAlign zero data tmpfile setLen os
            lastErrno).2 = .returned (.ok b) →
        b.receive elemSize = b.mem
        ∧ (b.receive elemSize).length = b.size / elemSize)
    ∧ (∃ b : MappedBuffer Int,
        (MappedBuffer.new 4 4 0 (List.replicate 16000 420) (.ok ()) (.ok ())
            (.mapped 4096) 0).2 = .returned (.ok b)
        ∧ (b.receive 4).length = 16000) := by
  constructor
  · intro α elemSize elemAlign zero data tmpfile setLen os lastErrno b hsz hb
    unfold MappedBuffer.new at hb
    by_cases hsize : 0 < data.length * elemSize
    · simp only [hsize, if_pos] at hb
      match tmpfile, setLen, os with
      | .error e, _, _ => simp at hb
      | .ok _, .error e, _ => simp at hb
      | .ok _, .ok _, .mapFailed => simp at hb
      | .ok _, .ok _, .mapped addr =>
        simp only [PanicOr.returned.injEq, Except.ok.injEq] at hb
        subst hb
        by_cases halign : addr % elemAlign = 0 <;>
          simp [halign, MappedBuffer.receive, Nat.mul_div_cancel _ hsz]
    · simp only [hsize, if_neg, if_false] at hb
      simp at hb
  · refine ⟨⟨64000, 4096, List.replicate 16000 420⟩, ?_, ?_⟩
    · simp only [MappedBuffer.new, List.length_replicate]
      norm_num
    · simp only [MappedBuffer.receive, List.take_replicate, List.length_replicate]
      norm_num

/-- Witness for the general part of C8 at `data = [7]`, `elemSize = 4`. -/
theorem receive_full_view_witness :
    MappedBuffer.receive 4 (⟨4, 4096, [7]⟩ : MappedBuffer Int)
        = (⟨4, 4096, [7]⟩ : MappedBuffer Int).mem
    ∧ (MappedBuffer.receive 4 (⟨4, 4096, [7]⟩ : MappedBuffer Int)).length
        = (⟨4, 4096, [7]⟩ : MappedBuffer Int).size / 4 :=
  receive_full_view.1 Int 4 4 0 [7] (.ok ()) (.ok ()) (.mapped 4096) 0
    ⟨4, 4096, [7]⟩ (by decide) rfl

/-- C10: for every live buffer, the `Deref` implementation yields exactly
the slice `receive()` yields — same elements and same length — so the two
read paths are interchangeable. -/
theorem deref_eq_receive {α : Type} (elemSize : Nat) (b : MappedBuffer α) :
    b.deref elemSize = b.receive elemSize
    ∧ (b.deref elemSize).length = (b.receive elemSize).length :=
  ⟨rfl, rfl⟩

end Memguar
